import Mathlib

/-!
Verification of the gitbot deploy-sync webhook engine (`gitbot/deployhook.py`).

The Python source is shallowly embedded: bytes are `List Nat` (each < 256),
machine words are `Nat` reduced `% 2^32` where overflow matters, the Flask
request payloads become explicit structures, and the git subprocess layer of
the revert workflow becomes an explicit command trace over an abstract git
world.  Definitions follow the source; theorems settle the frozen claims.
-/

namespace Gitbot

/-! ## Bytes, SHA-1 and HMAC-SHA1 (Python `hashlib.sha1` / `hmac`) -/

/-- 32-bit left rotation on a word < 2^32. -/
def rotl (n x : Nat) : Nat :=
  ((x <<< n) ||| (x >>> (32 - n))) % 4294967296

/-- Big-endian byte serialization of `val` into `n` bytes. -/
def toBytesBE (n val : Nat) : List Nat :=
  (List.range n).map (fun i => (val >>> ((n - 1 - i) * 8)) % 256)

/-- SHA-1 padding: append 0x80, zero bytes to 56 mod 64, then the 8-byte
big-endian bit length. -/
def sha1Pad (msg : List Nat) : List Nat :=
  msg ++ [128] ++ List.replicate ((119 - msg.length % 64) % 64) 0
      ++ toBytesBE 8 (msg.length * 8)

def chunksAux (sz : Nat) : Nat → List Nat → List (List Nat)
  | 0, _ => []
  | _, [] => []
  | fuel + 1, l => l.take sz :: chunksAux sz fuel (l.drop sz)

/-- Split a byte list into 64-byte chunks. -/
def chunks64 (l : List Nat) : List (List Nat) :=
  chunksAux 64 l.length l

/-- Group bytes in fours into big-endian 32-bit words. -/
def bytesToWords (l : List Nat) : List Nat :=
  (chunksAux 4 l.length l).map (fun b =>
    b.getD 0 0 * 16777216 + b.getD 1 0 * 65536 + b.getD 2 0 * 256 + b.getD 3 0)

/-- Extend the 16 chunk words to the 80-entry SHA-1 message schedule. -/
def sha1Schedule (ws : List Nat) : List Nat :=
  (List.range 80).foldl
    (fun acc i =>
      if i < 16 then acc ++ [ws.getD i 0]
      else
        acc ++ [rotl 1 ((acc.getD (i - 3) 0 ^^^ acc.getD (i - 8) 0) ^^^
                        (acc.getD (i - 14) 0 ^^^ acc.getD (i - 16) 0))])
    []

/-- SHA-1 round function. -/
def sha1F (t b c d : Nat) : Nat :=
  if t < 20 then (b &&& c) ||| ((b ^^^ 4294967295) &&& d)
  else if t < 40 then (b ^^^ c) ^^^ d
  else if t < 60 then ((b &&& c) ||| (b &&& d)) ||| (c &&& d)
  else (b ^^^ c) ^^^ d

/-- SHA-1 round constants. -/
def sha1K (t : Nat) : Nat :=
  if t < 20 then 1518500249
  else if t < 40 then 1859775393
  else if t < 60 then 2400959708
  else 3395469782

/-- Process one 64-byte chunk. -/
def sha1Compress (h : Nat × Nat × Nat × Nat × Nat) (chunk : List Nat) :
    Nat × Nat × Nat × Nat × Nat :=
  let w := sha1Schedule (bytesToWords chunk)
  let s := (List.range 80).foldl
    (fun (st : Nat × Nat × Nat × Nat × Nat) t =>
      let tmp := (rotl 5 st.1 + sha1F t st.2.1 st.2.2.1 st.2.2.2.1 + st.2.2.2.2 +
                  sha1K t + w.getD t 0) % 4294967296
      (tmp, st.1, rotl 30 st.2.1, st.2.2.1, st.2.2.2.1))
    h
  ((h.1 + s.1) % 4294967296, (h.2.1 + s.2.1) % 4294967296,
   (h.2.2.1 + s.2.2.1) % 4294967296, (h.2.2.2.1 + s.2.2.2.1) % 4294967296,
   (h.2.2.2.2 + s.2.2.2.2) % 4294967296)

/-- SHA-1 digest of a byte string, as 20 bytes. -/
def sha1 (msg : List Nat) : List Nat :=
  let h := (chunks64 (sha1Pad msg)).foldl sha1Compress
    (1732584193, 4023233417, 2562383102, 271733878, 3285377520)
  toBytesBE 4 h.1 ++ toBytesBE 4 h.2.1 ++ toBytesBE 4 h.2.2.1 ++
    toBytesBE 4 h.2.2.2.1 ++ toBytesBE 4 h.2.2.2.2

/-- HMAC-SHA1 with 64-byte block size (Python `hmac.new(key, msg, hashlib.sha1)`). -/
def hmacSha1 (key msg : List Nat) : List Nat :=
  let k0 := if key.length > 64 then sha1 key else key
  let k := k0 ++ List.replicate (64 - k0.length) 0
  sha1 ((k.map (fun b => b ^^^ 92)) ++ sha1 ((k.map (fun b => b ^^^ 54)) ++ msg))

/-- Lowercase hex character for a nibble. -/
def hexChar (n : Nat) : Char :=
  if n < 10 then Char.ofNat (48 + n) else Char.ofNat (87 + n)

/-- Lowercase hex encoding of a byte string (Python `.hexdigest()`). -/
def hexdigest (bytes : List Nat) : String :=
  ⟨bytes.foldr (fun b acc => hexChar (b / 16) :: hexChar (b % 16) :: acc) []⟩

/-- Python `hmac.compare_digest` on two ASCII strings: constant-time equality,
whose value is string equality. -/
def compare_digest (a b : String) : Bool := a == b

/-- `deployhook.valid_payload`: hex HMAC-SHA1 of the raw body keyed by the
secret, compared with the provided signature. The secret's UTF-8 bytes and the
raw body bytes are the `List Nat` inputs. -/
def valid_payload (secret payload : List Nat) (signature : String) : Bool :=
  compare_digest (hexdigest (hmacSha1 secret payload)) signature

end Gitbot

namespace Gitbot

/-! ## Generic string helpers (Python `str.startswith`, `str.find`, `str.replace`) -/

/-- Boolean list prefix test (`startsWithL needle hay`). -/
def startsWithL {α : Type} [BEq α] : List α → List α → Bool
  | [], _ => true
  | _ :: _, [] => false
  | a :: as, b :: bs => a == b && startsWithL as bs

/-- Boolean substring test: Python `hay.find(needle) != -1`. -/
def containsL {α : Type} [BEq α] (needle : List α) : List α → Bool
  | [] => needle.isEmpty
  | c :: t => startsWithL needle (c :: t) || containsL needle t

/-- Python `s.startswith(pre)`. -/
def strStartsWith (s pre : String) : Bool := startsWithL pre.data s.data

/-- Python `hay.find(needle) != -1`. -/
def strContains (hay needle : String) : Bool := containsL needle.data hay.data

/-- Python `s.replace('"', "")`: drop every double-quote character. -/
def stripQuotes (s : String) : String := ⟨s.data.filter (fun c => c ≠ '"')⟩

/-! ## Event Router data model (`process_push`, `process_pull_request`)

The HTTP layer is the caller; a response is its body (`reason`, plus
`revert_sha` on a successful revert) and its status code.  The Version Bump
Protocol (`gitbot.lib.bump_version`, not part of this file's sources) is an
oracle `bump : branch → sha → Bool × String` in the router configuration; the
trace of its invocations `(branch, sha)` is returned next to the response.
The author metadata forwarded by `process_push` does not influence routing and
is elided. -/

structure Response where
  reason : String
  revert_sha : Option String := none
  status : Nat
deriving DecidableEq, Repr

abbrev BumpCall := String × String

structure RouterCfg where
  isDev : Bool
  sentryRepoUpstream : String
  getsentryBranch : String
  gitbotMarker : String
  bump : BumpCall → Bool × String

/-- `request.args.get("branches") or "master,test-branch"` (an absent or empty
argument falls back to the default, as Python `or` does). -/
def branchesArg (bp : Option String) : String :=
  match bp with
  | none => "master,test-branch"
  | some s => if s = "" then "master,test-branch" else s

def splitCommaAux : List Char → List Char → List String
  | [], acc => [⟨acc.reverse⟩]
  | c :: t, acc =>
      if c = ',' then ⟨acc.reverse⟩ :: splitCommaAux t []
      else splitCommaAux t (c :: acc)

/-- Python `s.split(",")`: split on every comma, keeping empty pieces. -/
def splitComma (s : String) : List String := splitCommaAux s.data []

/-- The tracked-branch set of `process_push`. -/
def trackedBranches (bp : Option String) : List String :=
  (splitComma (branchesArg bp)).map (fun x => "refs/heads/" ++ x)

/-- `data.get("ref") in branches` (an absent ref is in no set). -/
def refTracked (bp : Option String) (ref : Option String) : Bool :=
  match ref with
  | none => false
  | some r => (trackedBranches bp).contains r

structure HeadCommit where
  id : Option String
deriving DecidableEq

/-- The fields of a "push" payload read by `process_push`. -/
structure PushPayload where
  ref : Option String
  repositoryFullName : String
  headCommit : Option HeadCommit
deriving DecidableEq

/-- `deployhook.process_push`.  The staging-only upstream side sync is
swallowed by the source (`try/except` with a warning) and never affects the
response, so it is not modelled. -/
def process_push (cfg : RouterCfg) (bp : Option String) (p : PushPayload) :
    Response × List BumpCall :=
  if refTracked bp p.ref = false then
    ({ reason := "Commit against untracked branch.", status := 200 }, [])
  else
    match p.headCommit.bind (fun h => h.id) with
    | none => ({ reason := "Commit not relevant for deploy sync.", status := 200 }, [])
    | some sha =>
      if (cfg.isDev ∧ (p.repositoryFullName.splitOn "/").getD 1 "" = "sentry")
          ∨ p.repositoryFullName = cfg.sentryRepoUpstream then
        let r := cfg.bump (cfg.getsentryBranch, sha)
        ({ reason := r.2, status := if r.1 then 200 else 400 },
         [(cfg.getsentryBranch, sha)])
      else
        ({ reason := "Unknown repository", status := 200 }, [])

/-- The fields of a "pull_request" payload read by `process_pull_request`. -/
structure PRPayload where
  action : Option String
  repositoryFullName : String
  headRepoFullName : String
  headSha : String
  headRef : String
  baseRepoFullName : String
  merged : Bool
  body : Option String
deriving DecidableEq

/-- `deployhook.process_pull_request`. -/
def process_pull_request (cfg : RouterCfg) (p : PRPayload) :
    Response × List BumpCall :=
  if ¬ (p.action = some "synchronize" ∨ p.action = some "opened") then
    ({ reason := "Unsupported action for pull_request event.", status := 200 }, [])
  else if ¬ cfg.isDev ∧ p.repositoryFullName ≠ cfg.sentryRepoUpstream then
    ({ reason := "Unknown repository", status := 200 }, [])
  else if ¬ cfg.isDev ∧ (p.headRepoFullName ≠ cfg.sentryRepoUpstream
      ∨ p.baseRepoFullName ≠ cfg.sentryRepoUpstream) then
    ({ reason := "Invalid head or base repos.", status := 200 }, [])
  else if ¬ cfg.isDev ∧ p.merged then
    ({ reason := "Pull request is already merged.", status := 200 }, [])
  else if strContains (p.body.getD "") cfg.gitbotMarker = false then
    ({ reason := "Deploy marker not found.", status := 200 }, [])
  else if p.headSha ≠ "" then
    let r := cfg.bump (p.headRef, p.headSha)
    ({ reason := r.2, status := if r.1 then 200 else 400 },
     [(p.headRef, p.headSha)])
  else
    ({ reason := "Commit not relevant for deploy sync.", status := 200 }, [])

end Gitbot

namespace Gitbot

/-! ## Revert Workflow (`process_git_revert`, `revert`)

The git subprocess layer (`gitbot.lib.run`, `update_checkout`) is outside the
given sources; following the spec it is a command runner
`run(args, cwd) -> {stdout, exitCode}` where a non-zero exit raises
`CommandError`.  The revert path issues a fixed sequence of commands, embedded
as the `Cmd` trace below, against an abstract git world:

* `remoteTip url` — the remote repository's `master` tip;
* after a successful `update_checkout`, the shared checkout is a fast-forward
  of its remote default branch (spec §4.1), so its tip is `remoteTip url`;
* `git clone <checkout> <tmp>` snapshots that tip as the ephemeral clone's
  `HEAD` and as its remote-tracking ref `origin/master`;
* `git log -1 --format="%s" <sha>` prints the commit subject wrapped in the
  literal double quotes of the format argument (the source's own comment shows
  stdout like `"Revert "ref(snql) Update SDK to latest (#26638)""`), and
  `subjectOf sha` is the underlying subject;
* `git commit -m ...` creates a fresh commit, `revertCommitSha`;
* a non-dry-run `git push <url>` moves the remote tip to the pushed `HEAD` and
  touches no remote-tracking ref of the clone;
* `git rev-parse origin/master` in the clone resolves the clone-time snapshot.

Each command may instead fail (`fails`), raising `CommandError`, which the
embedding returns as `Except.error` carrying the failing command. -/

inductive Cmd where
  | updateCheckout (url path : String)
  | cloneCmd (src : String)
  | logCmd (sha : String)
  | revertCmd (sha : String)
  | commitCmd (msgs : List String)
  | pushCmd (url : String) (dryRun : Bool)
  | revParseCmd
deriving DecidableEq, Repr

abbrev CommandError := Cmd

structure GitWorld where
  remoteTip : String → String
  subjectOf : String → String
  revertCommitSha : String

structure GitEnv where
  world : GitWorld
  fails : Cmd → Bool

structure RevertReq where
  repo : String
  sha : String
  name : String

structure RevertConfig where
  sentryRepoUrl : String
  getsentryRepoUrl : String
  sentryCheckoutPath : String
  getsentryCheckoutPath : String
  dryRun : Bool

structure RevertOutcome where
  result : Except CommandError Response
  trace : List Cmd
  finalRemote : String → String

/-- `SENTRY_REPO_URL if repo == "sentry" else GETSENTRY_REPO_URL`. -/
def revertRepoUrl (cfg : RevertConfig) (req : RevertReq) : String :=
  if req.repo = "sentry" then cfg.sentryRepoUrl else cfg.getsentryRepoUrl

/-- `SENTRY_CHECKOUT_PATH if repo == "sentry" else GETSENTRY_CHECKOUT_PATH`. -/
def revertCheckout (cfg : RevertConfig) (req : RevertReq) : String :=
  if req.repo = "sentry" then cfg.sentryCheckoutPath else cfg.getsentryCheckoutPath

/-- Raw stdout of `git log -1 --format="%s" <sha>`: the subject wrapped in the
format argument's literal quotes. -/
def gitLogStdout (w : GitWorld) (sha : String) : String :=
  "\"" ++ w.subjectOf sha ++ "\""

/-- `subject = execution.stdout.replace('"', "")`. -/
def revertSubject (w : GitWorld) (sha : String) : String :=
  stripQuotes (gitLogStdout w sha)

/-- `repo == "getsentry" and subject.startswith("getsentry/sentry@")`. -/
def revertGuard (w : GitWorld) (req : RevertReq) : Prop :=
  req.repo = "getsentry" ∧
    strStartsWith (revertSubject w req.sha) "getsentry/sentry@" = true

instance (w : GitWorld) (req : RevertReq) : Decidable (revertGuard w req) := by
  unfold revertGuard; infer_instance

/-- The three `-m` messages of the revert commit. -/
def revertCommitMsgs (w : GitWorld) (req : RevertReq) : List String :=
  ["Revert \"" ++ revertSubject w req.sha ++ "\"",
   "This reverts commit " ++ req.sha ++ ".",
   "Co-authored-by: " ++ req.name]

/-- The full straight-line command sequence of one revert request. -/
def fullRevertTrace (cfg : RevertConfig) (w : GitWorld) (req : RevertReq) :
    List Cmd :=
  [Cmd.updateCheckout (revertRepoUrl cfg req) (revertCheckout cfg req),
   Cmd.cloneCmd (revertCheckout cfg req),
   Cmd.logCmd req.sha,
   Cmd.revertCmd req.sha,
   Cmd.commitCmd (revertCommitMsgs w req),
   Cmd.pushCmd (revertRepoUrl cfg req) cfg.dryRun,
   Cmd.revParseCmd]

/-- The cross-repo guard's refusal response. -/
def guardRefusal (sha : String) : Response :=
  { reason := sha ++ " cannot be reverted because it needs to be reverted in Sentry"
    revert_sha := none
    status := 400 }

/-- The remote tips after the push step: a non-dry-run push moves the target
remote's tip to the pushed fresh revert commit; a dry-run push moves
nothing. -/
def remoteAfterPush (cfg : RevertConfig) (w : GitWorld) (req : RevertReq) :
    String → String :=
  fun u =>
    if cfg.dryRun then w.remoteTip u
    else if u = revertRepoUrl cfg req then w.revertCommitSha else w.remoteTip u

/-- The success response: `git rev-parse origin/master` in the ephemeral
clone resolves the clone-time remote-tracking snapshot, i.e. the shared
checkout's tip right after `update_checkout` — the remote tip as of the start
of the request — and that value is returned as `revert_sha`. -/
def successResp (cfg : RevertConfig) (w : GitWorld) (req : RevertReq) : Response :=
  { reason := req.sha ++ " reverted."
    revert_sha := some (w.remoteTip (revertRepoUrl cfg req))
    status := 200 }

/-- `deployhook.process_git_revert`: the commands run in the order of
`fullRevertTrace`; the first failing command aborts the request with
`CommandError`; the cross-repo guard aborts after the log step. -/
def process_git_revert (cfg : RevertConfig) (env : GitEnv) (req : RevertReq) :
    RevertOutcome :=
  if env.fails (Cmd.updateCheckout (revertRepoUrl cfg req) (revertCheckout cfg req)) then
    ⟨Except.error (Cmd.updateCheckout (revertRepoUrl cfg req) (revertCheckout cfg req)),
     (fullRevertTrace cfg env.world req).take 1, env.world.remoteTip⟩
  else if env.fails (Cmd.cloneCmd (revertCheckout cfg req)) then
    ⟨Except.error (Cmd.cloneCmd (revertCheckout cfg req)),
     (fullRevertTrace cfg env.world req).take 2, env.world.remoteTip⟩
  else if env.fails (Cmd.logCmd req.sha) then
    ⟨Except.error (Cmd.logCmd req.sha),
     (fullRevertTrace cfg env.world req).take 3, env.world.remoteTip⟩
  else if revertGuard env.world req then
    ⟨Except.ok (guardRefusal req.sha),
     (fullRevertTrace cfg env.world req).take 3, env.world.remoteTip⟩
  else if env.fails (Cmd.revertCmd req.sha) then
    ⟨Except.error (Cmd.revertCmd req.sha),
     (fullRevertTrace cfg env.world req).take 4, env.world.remoteTip⟩
  else if env.fails (Cmd.commitCmd (revertCommitMsgs env.world req)) then
    ⟨Except.error (Cmd.commitCmd (revertCommitMsgs env.world req)),
     (fullRevertTrace cfg env.world req).take 5, env.world.remoteTip⟩
  else if env.fails (Cmd.pushCmd (revertRepoUrl cfg req) cfg.dryRun) then
    ⟨Except.error (Cmd.pushCmd (revertRepoUrl cfg req) cfg.dryRun),
     (fullRevertTrace cfg env.world req).take 6, env.world.remoteTip⟩
  else if env.fails Cmd.revParseCmd then
    ⟨Except.error Cmd.revParseCmd,
     fullRevertTrace cfg env.world req, remoteAfterPush cfg env.world req⟩
  else
    ⟨Except.ok (successResp cfg env.world req),
     fullRevertTrace cfg env.world req, remoteAfterPush cfg env.world req⟩

/-- The `/api/revert` view body after signature validation: runs
`process_git_revert` once and converts `CommandError` into the generic
failure response. -/
def revert (cfg : RevertConfig) (env : GitEnv) (req : RevertReq) :
    Response × List Cmd :=
  match process_git_revert cfg env req with
  | ⟨Except.ok r, tr, _⟩ => (r, tr)
  | ⟨Except.error _, tr, _⟩ =>
      ({ reason := "Failed to revert.", status := 400 }, tr)

end Gitbot

namespace Gitbot

/-! ## Claims -/

set_option maxRecDepth 10000
set_option maxHeartbeats 4000000

/-- C1: for every secret, raw body and provided hex signature, `valid_payload`
accepts exactly when the signature equals the hex-encoded HMAC-SHA1 of the
body keyed by the secret; in particular a body signed with the secret
verifies, and (concretely, for the secret "key" and body "abc") a single-bit
flip of the body (97 → 96 in its first byte) or of the signature
('4' → '5' in its first hex character) makes verification fail. -/
theorem C1_signature_verifier_exact :
    (∀ S B H, valid_payload S B H = true ↔ H = hexdigest (hmacSha1 S B))
    ∧ (∀ S B, valid_payload S B (hexdigest (hmacSha1 S B)) = true)
    ∧ valid_payload [107, 101, 121] [97, 98, 99]
        "4fd0b215276ef12f2b3e4c8ecac2811498b656fc" = true
    ∧ valid_payload [107, 101, 121] [96, 98, 99]
        "4fd0b215276ef12f2b3e4c8ecac2811498b656fc" = false
    ∧ valid_payload [107, 101, 121] [97, 98, 99]
        "5fd0b215276ef12f2b3e4c8ecac2811498b656fc" = false := by
  refine ⟨?_, ?_, by decide, by decide, by decide⟩
  · intro S B H
    simp only [valid_payload, compare_digest, beq_iff_eq]
    exact eq_comm
  · intro S B
    simp only [valid_payload, compare_digest, beq_self_eq_true]

end Gitbot

namespace Gitbot

/-! ### Helper lemmas -/

theorem startsWithL_filter {p l : List Char} (hp : startsWithL p l = true)
    (hq : ∀ c ∈ p, c ≠ '"') :
    startsWithL p (l.filter (fun c => c ≠ '"')) = true := by
  induction p generalizing l with
  | nil => rfl
  | cons a as ih =>
    cases l with
    | nil => simp [startsWithL] at hp
    | cons b bs =>
      simp only [startsWithL, Bool.and_eq_true, beq_iff_eq] at hp
      obtain ⟨hab, h2⟩ := hp
      subst hab
      have hb : a ≠ '"' := hq a (List.mem_cons_self a as)
      rw [List.filter_cons_of_pos (by simp [hb])]
      simp only [startsWithL, Bool.and_eq_true, beq_iff_eq]
      exact ⟨by trivial, ih h2 (fun c hc => hq c (List.mem_cons_of_mem _ hc))⟩

/-- Quote-stripping ignores the wrapping quotes of the `git log` stdout. -/
theorem stripQuotes_wrapped (s : String) :
    stripQuotes ("\"" ++ s ++ "\"") = stripQuotes s := by
  simp [stripQuotes, String.data_append]

/-- A string without double quotes is fixed by `stripQuotes`. -/
theorem stripQuotes_eq_self {s : String} (h : ∀ c ∈ s.data, c ≠ '"') :
    stripQuotes s = s := by
  unfold stripQuotes
  rw [List.filter_eq_self.mpr (fun c hc => by simpa using h c hc)]

/-- The claim's guard condition implies the code's: a subject starting with
the pointer-bump pattern still starts with it after quote stripping. -/
theorem revertGuard_of_subject (w : GitWorld) (req : RevertReq)
    (h1 : req.repo = "getsentry")
    (h2 : strStartsWith (w.subjectOf req.sha) "getsentry/sentry@" = true) :
    revertGuard w req := by
  refine ⟨h1, ?_⟩
  unfold revertSubject
  rw [gitLogStdout, stripQuotes_wrapped]
  unfold strStartsWith stripQuotes at *
  exact startsWithL_filter h2 (by decide)

end Gitbot

namespace Gitbot

/-- C5: a push event whose ref is not in the configured tracked-branch set
(by default refs/heads/master and refs/heads/test-branch) yields the
untracked-branch no-op response with status 200 and never invokes the bump
protocol, regardless of the rest of the payload (the response string of the
source is "Commit against untracked branch."). -/
theorem C5_untracked_branch_noop :
    (∀ cfg bp p, refTracked bp p.ref = false →
      process_push cfg bp p =
        ({ reason := "Commit against untracked branch.", revert_sha := none,
           status := 200 }, []))
    ∧ trackedBranches none = ["refs/heads/master", "refs/heads/test-branch"] := by
  constructor
  · intro cfg bp p h
    simp [process_push, h]
  · rfl

def c5cfg : RouterCfg :=
  { isDev := false, sentryRepoUpstream := "getsentry/sentry",
    getsentryBranch := "master", gitbotMarker := "#sync-getsentry",
    bump := fun _ => (true, "bumped") }

def c5payload : PushPayload :=
  { ref := some "refs/heads/feature-x", repositoryFullName := "getsentry/sentry",
    headCommit := some { id := some "0123abc" } }

/-- Witness for C5 at the payload with ref refs/heads/feature-x. -/
theorem C5_untracked_branch_noop_witness :
    refTracked none c5payload.ref = false ∧
    process_push c5cfg none c5payload =
      ({ reason := "Commit against untracked branch.", revert_sha := none,
         status := 200 }, []) :=
  ⟨by decide, C5_untracked_branch_noop.1 c5cfg none c5payload (by decide)⟩

/-- C10: a push event whose ref is tracked but which carries no head commit
id (head_commit absent or its id null) responds "Commit not relevant for
deploy sync." with status 200 and does not invoke the bump protocol. -/
theorem C10_tracked_branch_without_head_commit :
    ∀ cfg bp p, refTracked bp p.ref = true →
      p.headCommit.bind (fun hc => hc.id) = none →
      process_push cfg bp p =
        ({ reason := "Commit not relevant for deploy sync.", revert_sha := none,
           status := 200 }, []) := by
  intro cfg bp p h1 h2
  simp [process_push, h1, h2]

def c10payload : PushPayload :=
  { ref := some "refs/heads/master", repositoryFullName := "getsentry/sentry",
    headCommit := none }

/-- Witness for C10 at a master push without head_commit. -/
theorem C10_tracked_branch_without_head_commit_witness :
    refTracked none c10payload.ref = true ∧
    c10payload.headCommit.bind (fun hc => hc.id) = none ∧
    process_push c5cfg none c10payload =
      ({ reason := "Commit not relevant for deploy sync.", revert_sha := none,
         status := 200 }, []) :=
  ⟨by decide, by decide,
   C10_tracked_branch_without_head_commit c5cfg none c10payload (by decide) (by decide)⟩

end Gitbot

namespace Gitbot

/-- C4: pull_request routing. (a) An action other than "opened"/"synchronize"
(e.g. "closed") no-ops; (b) whenever the PR body lacks the deploy marker no
bump is invoked and the status is 200 (in particular for an eligible action);
(c) with the marker present, outside development mode, head and base from the
recognized source repo, not merged, and a non-empty head SHA, the bump
protocol is invoked exactly once, with the PR's head branch and head SHA. -/
theorem C4_pull_request_routing :
    (∀ cfg p, ¬ (p.action = some "synchronize" ∨ p.action = some "opened") →
      process_pull_request cfg p =
        ({ reason := "Unsupported action for pull_request event.",
           revert_sha := none, status := 200 }, []))
    ∧ (∀ cfg p, strContains (p.body.getD "") cfg.gitbotMarker = false →
        (process_pull_request cfg p).2 = [] ∧
        (process_pull_request cfg p).1.status = 200)
    ∧ (∀ cfg p, cfg.isDev = false →
        (p.action = some "synchronize" ∨ p.action = some "opened") →
        p.repositoryFullName = cfg.sentryRepoUpstream →
        p.headRepoFullName = cfg.sentryRepoUpstream →
        p.baseRepoFullName = cfg.sentryRepoUpstream →
        p.merged = false →
        strContains (p.body.getD "") cfg.gitbotMarker = true →
        p.headSha ≠ "" →
        process_pull_request cfg p =
          ({ reason := (cfg.bump (p.headRef, p.headSha)).2, revert_sha := none,
             status := if (cfg.bump (p.headRef, p.headSha)).1 then 200 else 400 },
           [(p.headRef, p.headSha)])) := by
  refine ⟨?_, ?_, ?_⟩
  · intro cfg p h
    simp [process_pull_request, h]
  · intro cfg p h
    unfold process_pull_request
    split_ifs <;> simp_all
  · intro cfg p h1 h2 h3 h4 h5 h6 h7 h8
    rcases h2 with h2 | h2 <;>
      simp [process_pull_request, h1, h2, h3, h4, h5, h6, h7, h8]

def c4cfg : RouterCfg :=
  { isDev := false, sentryRepoUpstream := "getsentry/sentry",
    getsentryBranch := "master", gitbotMarker := "#sync-getsentry",
    bump := fun _ => (true, "bumped") }

def c4closed : PRPayload :=
  { action := some "closed", repositoryFullName := "getsentry/sentry",
    headRepoFullName := "getsentry/sentry", headSha := "feedc0de",
    headRef := "fix/crash", baseRepoFullName := "getsentry/sentry",
    merged := false, body := some "#sync-getsentry" }

def c4nomarker : PRPayload :=
  { action := some "opened", repositoryFullName := "getsentry/sentry",
    headRepoFullName := "getsentry/sentry", headSha := "feedc0de",
    headRef := "fix/crash", baseRepoFullName := "getsentry/sentry",
    merged := false, body := some "just a description" }

def c4marked : PRPayload :=
  { action := some "opened", repositoryFullName := "getsentry/sentry",
    headRepoFullName := "getsentry/sentry", headSha := "feedc0de",
    headRef := "fix/crash", baseRepoFullName := "getsentry/sentry",
    merged := false, body := some "description #sync-getsentry" }

/-- Witness for C4: a closed PR no-ops, an opened PR without the marker
no-ops, and a marked same-repo PR invokes the bump exactly once. -/
theorem C4_pull_request_routing_witness :
    process_pull_request c4cfg c4closed =
      ({ reason := "Unsupported action for pull_request event.",
         revert_sha := none, status := 200 }, [])
    ∧ ((process_pull_request c4cfg c4nomarker).2 = [] ∧
       (process_pull_request c4cfg c4nomarker).1.status = 200)
    ∧ process_pull_request c4cfg c4marked =
        ({ reason := (c4cfg.bump ("fix/crash", "feedc0de")).2, revert_sha := none,
           status := if (c4cfg.bump ("fix/crash", "feedc0de")).1 then 200 else 400 },
         [("fix/crash", "feedc0de")]) :=
  ⟨C4_pull_request_routing.1 c4cfg c4closed (by decide),
   C4_pull_request_routing.2.1 c4cfg c4nomarker (by decide),
   C4_pull_request_routing.2.2 c4cfg c4marked rfl (Or.inr rfl) rfl rfl rfl rfl
     (by decide) (by decide)⟩

end Gitbot

namespace Gitbot

/-- C3: a revert request against getsentry whose target commit's subject
starts with the pointer-bump pattern "getsentry/sentry@" (and whose update,
clone and log commands run normally) returns the cross-repo-guard refusal
"<sha> cannot be reverted because it needs to be reverted in Sentry" without
running any revert, commit or push command, and leaves every remote tip
unchanged. -/
theorem C3_cross_repo_guard (cfg : RevertConfig) (env : GitEnv) (req : RevertReq)
    (h1 : req.repo = "getsentry")
    (h2 : strStartsWith (env.world.subjectOf req.sha) "getsentry/sentry@" = true)
    (hc1 : env.fails (Cmd.updateCheckout (revertRepoUrl cfg req)
        (revertCheckout cfg req)) = false)
    (hc2 : env.fails (Cmd.cloneCmd (revertCheckout cfg req)) = false)
    (hc3 : env.fails (Cmd.logCmd req.sha) = false) :
    (process_git_revert cfg env req).result = Except.ok (guardRefusal req.sha)
    ∧ (guardRefusal req.sha).reason =
        req.sha ++ " cannot be reverted because it needs to be reverted in Sentry"
    ∧ (guardRefusal req.sha).status = 400
    ∧ (∀ c ∈ (process_git_revert cfg env req).trace,
        (∀ sha, c ≠ Cmd.revertCmd sha) ∧ (∀ msgs, c ≠ Cmd.commitCmd msgs) ∧
        (∀ url dr, c ≠ Cmd.pushCmd url dr))
    ∧ (process_git_revert cfg env req).finalRemote = env.world.remoteTip := by
  have hg : revertGuard env.world req := revertGuard_of_subject _ _ h1 h2
  refine ⟨?_, rfl, rfl, ?_, ?_⟩ <;>
    simp [process_git_revert, hc1, hc2, hc3, hg, fullRevertTrace]

def c3cfg : RevertConfig :=
  { sentryRepoUrl := "sentry-url", getsentryRepoUrl := "getsentry-url",
    sentryCheckoutPath := "sentry-path", getsentryCheckoutPath := "getsentry-path",
    dryRun := false }

def c3world : GitWorld :=
  { remoteTip := fun _ => "tip0",
    subjectOf := fun _ => "getsentry/sentry@11aa22bb (#7)",
    revertCommitSha := "fresh1" }

def c3env : GitEnv := { world := c3world, fails := fun _ => false }

def c3req : RevertReq :=
  { repo := "getsentry", sha := "11aa22bb", name := "Dev One <d1@example.com>" }

/-- Witness for C3 at a getsentry revert of a pointer-bump commit. -/
theorem C3_cross_repo_guard_witness :
    (process_git_revert c3cfg c3env c3req).result =
      Except.ok (guardRefusal c3req.sha)
    ∧ (guardRefusal c3req.sha).reason =
        c3req.sha ++ " cannot be reverted because it needs to be reverted in Sentry"
    ∧ (guardRefusal c3req.sha).status = 400
    ∧ (∀ c ∈ (process_git_revert c3cfg c3env c3req).trace,
        (∀ sha, c ≠ Cmd.revertCmd sha) ∧ (∀ msgs, c ≠ Cmd.commitCmd msgs) ∧
        (∀ url dr, c ≠ Cmd.pushCmd url dr))
    ∧ (process_git_revert c3cfg c3env c3req).finalRemote = c3env.world.remoteTip :=
  C3_cross_repo_guard c3cfg c3env c3req rfl (by decide) rfl rfl rfl

/-- A command's repository references: `updateCheckout`, `cloneCmd` and
`pushCmd` name the remote url or the shared checkout path; the remaining
commands run inside the ephemeral clone. -/
def cmdTargets (url path : String) : Cmd → Prop
  | Cmd.updateCheckout u p => u = url ∧ p = path
  | Cmd.cloneCmd s => s = path
  | Cmd.pushCmd u _ => u = url
  | _ => True

/-- C9: a revert request naming any repo other than the exact string
"sentry" — "getsentry" included, but also unknown names — selects the
getsentry remote url and checkout path, starts with an update of that
checkout (it is never rejected), and every command it runs references only
the getsentry url and checkout. -/
theorem C9_non_sentry_repo_is_getsentry (cfg : RevertConfig) (env : GitEnv)
    (req : RevertReq) (h : req.repo ≠ "sentry") :
    revertRepoUrl cfg req = cfg.getsentryRepoUrl
    ∧ revertCheckout cfg req = cfg.getsentryCheckoutPath
    ∧ (process_git_revert cfg env req).trace.head? =
        some (Cmd.updateCheckout cfg.getsentryRepoUrl cfg.getsentryCheckoutPath)
    ∧ ∀ c ∈ (process_git_revert cfg env req).trace,
        cmdTargets cfg.getsentryRepoUrl cfg.getsentryCheckoutPath c := by
  have hu : revertRepoUrl cfg req = cfg.getsentryRepoUrl := by
    simp [revertRepoUrl, h]
  have hc : revertCheckout cfg req = cfg.getsentryCheckoutPath := by
    simp [revertCheckout, h]
  refine ⟨hu, hc, ?_, ?_⟩
  · unfold process_git_revert
    split_ifs <;> simp [fullRevertTrace, hu, hc]
  · unfold process_git_revert
    split_ifs <;> simp [fullRevertTrace, cmdTargets, hu, hc]

def c9req : RevertReq :=
  { repo := "bogus-name", sha := "33cc44dd", name := "Dev Two <d2@example.com>" }

def c9env : GitEnv :=
  { world := { remoteTip := fun _ => "tip0", subjectOf := fun _ => "Fix (#1)",
               revertCommitSha := "fresh2" },
    fails := fun _ => false }

/-- Witness for C9 at the unknown repo name "bogus-name". -/
theorem C9_non_sentry_repo_is_getsentry_witness :
    revertRepoUrl c3cfg c9req = c3cfg.getsentryRepoUrl
    ∧ revertCheckout c3cfg c9req = c3cfg.getsentryCheckoutPath
    ∧ (process_git_revert c3cfg c9env c9req).trace.head? =
        some (Cmd.updateCheckout c3cfg.getsentryRepoUrl c3cfg.getsentryCheckoutPath)
    ∧ ∀ c ∈ (process_git_revert c3cfg c9env c9req).trace,
        cmdTargets c3cfg.getsentryRepoUrl c3cfg.getsentryCheckoutPath c :=
  C9_non_sentry_repo_is_getsentry c3cfg c9env c9req (by decide)

end Gitbot

namespace Gitbot

/-- C8: whenever any git command of the revert workflow fails
(`CommandError`, i.e. `Except.error`), the outermost revert handler responds
"Failed to revert." with status 400 (the handler is total, so the process
never crashes); and the commands run are always a prefix of the
duplicate-free straight-line sequence, so no command is ever retried within
the call. -/
theorem C8_command_error_caught (cfg : RevertConfig) (env : GitEnv)
    (req : RevertReq) :
    (∀ e, (process_git_revert cfg env req).result = Except.error e →
      revert cfg env req =
        ({ reason := "Failed to revert.", revert_sha := none, status := 400 },
         (process_git_revert cfg env req).trace))
    ∧ (∃ rest, fullRevertTrace cfg env.world req =
        (process_git_revert cfg env req).trace ++ rest)
    ∧ (fullRevertTrace cfg env.world req).Nodup := by
  refine ⟨?_, ?_, ?_⟩
  · intro e he
    unfold revert
    rcases hout : process_git_revert cfg env req with ⟨res, tr, fr⟩
    rw [hout] at he
    simp only at he
    cases res with
    | ok r => exact absurd he (by simp)
    | error e2 => simp
  · unfold process_git_revert
    split_ifs <;>
      first
        | exact ⟨_, (List.take_append_drop _ _).symm⟩
        | exact ⟨[], by simp⟩
  · simp [fullRevertTrace]

def c8env : GitEnv :=
  { world := { remoteTip := fun _ => "tip0", subjectOf := fun _ => "Fix (#2)",
               revertCommitSha := "fresh3" },
    fails := fun c => match c with | Cmd.cloneCmd _ => true | _ => false }

def c8req : RevertReq :=
  { repo := "sentry", sha := "55ee66ff", name := "Dev Three <d3@example.com>" }

/-- Witness for C8 at a request whose clone step fails. -/
theorem C8_command_error_caught_witness :
    (process_git_revert c3cfg c8env c8req).result =
      Except.error (Cmd.cloneCmd (revertCheckout c3cfg c8req))
    ∧ revert c3cfg c8env c8req =
      ({ reason := "Failed to revert.", revert_sha := none, status := 400 },
       (process_git_revert c3cfg c8env c8req).trace)
    ∧ (∃ rest, fullRevertTrace c3cfg c8env.world c8req =
        (process_git_revert c3cfg c8env c8req).trace ++ rest)
    ∧ (fullRevertTrace c3cfg c8env.world c8req).Nodup :=
  ⟨rfl,
   (C8_command_error_caught c3cfg c8env c8req).1
     (Cmd.cloneCmd (revertCheckout c3cfg c8req)) rfl,
   (C8_command_error_caught c3cfg c8env c8req).2.1,
   (C8_command_error_caught c3cfg c8env c8req).2.2⟩

end Gitbot

namespace Gitbot

def c7world : GitWorld :=
  { remoteTip := fun _ => "oldtip", subjectOf := fun _ => "Fix bug (#42)",
    revertCommitSha := "newsha" }

def c7env : GitEnv := { world := c7world, fails := fun _ => false }

def c7req : RevertReq :=
  { repo := "sentry", sha := "abc123", name := "Jane Doe <jd@example.com>" }

/-- C7 (divergence): on a fully successful non-dry-run revert whose remote
tip was "oldtip" and whose fresh revert commit is "newsha", the response's
`revert_sha` is the clone-time snapshot "oldtip" — `git rev-parse
origin/master` in the ephemeral clone resolves the remote-tracking ref
recorded at clone time, which the later `git push <url>` does not update —
while the real remote's tip after the push is "newsha"; the two differ, so
the returned SHA is not the newly created revert commit. -/
theorem C7_revert_sha_is_clone_time_tip :
    (process_git_revert c3cfg c7env c7req).result =
      Except.ok (successResp c3cfg c7world c7req)
    ∧ (successResp c3cfg c7world c7req).revert_sha = some "oldtip"
    ∧ (process_git_revert c3cfg c7env c7req).finalRemote
        (revertRepoUrl c3cfg c7req) = "newsha"
    ∧ (some "oldtip" : Option String) ≠ some "newsha" :=
  ⟨rfl, rfl, by decide, by decide⟩

def c6world : GitWorld :=
  { remoteTip := fun _ => "tip0",
    subjectOf := fun _ => "Fix \"bad\" bug (#42)",
    revertCommitSha := "fresh4" }

def c6env : GitEnv := { world := c6world, fails := fun _ => false }

def c6req : RevertReq :=
  { repo := "sentry", sha := "abcd1234", name := "Jane Doe <jd@example.com>" }

/-- C6 counterexample: reverting a commit whose subject is
`Fix "bad" bug (#42)` produces a commit whose first message line is
`Revert "Fix bad bug (#42)"` — all double quotes of the subject are stripped
— which does not begin with `Revert "Fix "bad" bug (#42)"` as the claim
would require. -/
theorem C6_counterexample :
    (process_git_revert c3cfg c6env c6req).trace =
      fullRevertTrace c3cfg c6world c6req
    ∧ revertCommitMsgs c6world c6req =
        ["Revert \"Fix bad bug (#42)\"",
         "This reverts commit abcd1234.",
         "Co-authored-by: Jane Doe <jd@example.com>"]
    ∧ strStartsWith "Revert \"Fix bad bug (#42)\""
        ("Revert \"" ++ c6world.subjectOf c6req.sha ++ "\"") = false := by
  refine ⟨rfl, by decide, by decide⟩

/-- C6 amended: on a successful revert (no command fails, guard not
triggered) the pushed commit command carries exactly three messages: the
first is `Revert "<subject with every double quote removed>"`, the second
`This reverts commit <sha>.`, the third the co-author trailer with the
requester identity; for a subject containing no double quote the stripped
subject is the subject itself, giving the claim's `Revert "<subject>"`. -/
theorem C6_amended_revert_commit_message (cfg : RevertConfig) (env : GitEnv)
    (req : RevertReq) (hf : ∀ c, env.fails c = false)
    (hg : ¬ revertGuard env.world req) :
    (process_git_revert cfg env req).trace = fullRevertTrace cfg env.world req
    ∧ Cmd.commitCmd (revertCommitMsgs env.world req) ∈
        (process_git_revert cfg env req).trace
    ∧ revertCommitMsgs env.world req =
        ["Revert \"" ++ stripQuotes (env.world.subjectOf req.sha) ++ "\"",
         "This reverts commit " ++ req.sha ++ ".",
         "Co-authored-by: " ++ req.name]
    ∧ (∀ s : String, (∀ ch ∈ s.data, ch ≠ '"') → stripQuotes s = s) := by
  refine ⟨?_, ?_, ?_, ?_⟩
  · simp [process_git_revert, hf, hg]
  · simp [process_git_revert, hf, hg, fullRevertTrace]
  · simp [revertCommitMsgs, revertSubject, gitLogStdout, stripQuotes_wrapped]
  · exact fun s h => stripQuotes_eq_self h

def c6okworld : GitWorld :=
  { remoteTip := fun _ => "tip0", subjectOf := fun _ => "Fix bug (#42)",
    revertCommitSha := "fresh5" }

def c6okenv : GitEnv := { world := c6okworld, fails := fun _ => false }

def c6okreq : RevertReq :=
  { repo := "sentry", sha := "a1b2c3", name := "Jane Doe <jd@example.com>" }

/-- Witness for the amended C6 at a quote-free subject. -/
theorem C6_amended_revert_commit_message_witness :
    (process_git_revert c3cfg c6okenv c6okreq).trace =
      fullRevertTrace c3cfg c6okenv.world c6okreq
    ∧ Cmd.commitCmd (revertCommitMsgs c6okenv.world c6okreq) ∈
        (process_git_revert c3cfg c6okenv c6okreq).trace
    ∧ revertCommitMsgs c6okenv.world c6okreq =
        ["Revert \"" ++ stripQuotes (c6okenv.world.subjectOf c6okreq.sha) ++ "\"",
         "This reverts commit " ++ c6okreq.sha ++ ".",
         "Co-authored-by: " ++ c6okreq.name]
    ∧ (∀ s : String, (∀ ch ∈ s.data, ch ≠ '"') → stripQuotes s = s) :=
  C6_amended_revert_commit_message c3cfg c6okenv c6okreq (fun _ => rfl) (by decide)

end Gitbot

namespace Gitbot

/-- C2 counterexample: the cross-repo revert guard — an event recognized but
intentionally not acted upon — responds with failure status 400, not with a
success status. -/
theorem C2_counterexample :
    (process_git_revert c3cfg c3env c3req).result =
      Except.ok (guardRefusal c3req.sha)
    ∧ (guardRefusal c3req.sha).status = 400
    ∧ (guardRefusal c3req.sha).status ≠ 200 :=
  ⟨rfl, rfl, by decide⟩

/-- C2 amended: in push and pull_request processing every no-op (no bump
invoked: untracked branch, missing head commit, unknown repository,
unsupported action, fork, merged PR, missing marker) reports status 200, and
a non-200 status arises exactly from an attempted-and-failed bump; the
revert path's cross-repo guard, however, reports failure status 400. -/
theorem C2_amended_status_policy :
    (∀ cfg bp p, (process_push cfg bp p).2 = [] →
      (process_push cfg bp p).1.status = 200)
    ∧ (∀ cfg p, (process_pull_request cfg p).2 = [] →
      (process_pull_request cfg p).1.status = 200)
    ∧ (∀ cfg bp p, (process_push cfg bp p).1.status ≠ 200 →
      ∃ sha, (process_push cfg bp p).2 = [(cfg.getsentryBranch, sha)] ∧
        (cfg.bump (cfg.getsentryBranch, sha)).1 = false)
    ∧ (∀ cfg p, (process_pull_request cfg p).1.status ≠ 200 →
      (process_pull_request cfg p).2 = [(p.headRef, p.headSha)] ∧
        (cfg.bump (p.headRef, p.headSha)).1 = false)
    ∧ (∀ cfg env req r, revertGuard env.world req →
        (process_git_revert cfg env req).result = Except.ok r →
        r.status = 400) := by
  refine ⟨?_, ?_, ?_, ?_, ?_⟩
  · intro cfg bp p
    unfold process_push
    split
    · intro _; rfl
    · split
      · intro _; rfl
      · split
        · intro h; simp at h
        · intro _; rfl
  · intro cfg p
    unfold process_pull_request
    split_ifs <;> intro h <;> simp_all
  · intro cfg bp p
    unfold process_push
    split
    · intro h; simp at h
    · split
      · intro h; simp at h
      · next sha _ =>
          split
          · intro h
            refine ⟨sha, rfl, ?_⟩
            by_cases hb : (cfg.bump (cfg.getsentryBranch, sha)).1 <;> simp_all
          · intro h; simp at h
  · intro cfg p
    unfold process_pull_request
    split_ifs <;> intro h <;> simp_all
  · intro cfg env req r hg hr
    unfold process_git_revert at hr
    split_ifs at hr <;> simp_all [guardRefusal] <;> rw [← hr]

def c2cfgFail : RouterCfg :=
  { isDev := false, sentryRepoUpstream := "getsentry/sentry",
    getsentryBranch := "master", gitbotMarker := "#sync-getsentry",
    bump := fun _ => (false, "bump failed") }

def c2pushNoop : PushPayload :=
  { ref := some "refs/heads/other", repositoryFullName := "a/b",
    headCommit := none }

def c2prNoop : PRPayload :=
  { action := some "closed", repositoryFullName := "getsentry/sentry",
    headRepoFullName := "getsentry/sentry", headSha := "c0ffee",
    headRef := "br", baseRepoFullName := "getsentry/sentry",
    merged := false, body := some "#sync-getsentry" }

def c2push : PushPayload :=
  { ref := some "refs/heads/master", repositoryFullName := "getsentry/sentry",
    headCommit := some { id := some "c0ffee" } }

def c2pr : PRPayload :=
  { action := some "synchronize", repositoryFullName := "getsentry/sentry",
    headRepoFullName := "getsentry/sentry", headSha := "c0ffee",
    headRef := "br", baseRepoFullName := "getsentry/sentry",
    merged := false, body := some "x #sync-getsentry" }

/-- Witness for the amended C2: concrete no-op push and PR events get 200, a
failed bump yields the only non-200 router status, and the revert guard's
response has status 400. -/
theorem C2_amended_status_policy_witness :
    (process_push c2cfgFail none c2pushNoop).1.status = 200
    ∧ (process_pull_request c2cfgFail c2prNoop).1.status = 200
    ∧ (∃ sha, (process_push c2cfgFail none c2push).2 =
          [(c2cfgFail.getsentryBranch, sha)] ∧
        (c2cfgFail.bump (c2cfgFail.getsentryBranch, sha)).1 = false)
    ∧ ((process_pull_request c2cfgFail c2pr).2 = [(c2pr.headRef, c2pr.headSha)] ∧
        (c2cfgFail.bump (c2pr.headRef, c2pr.headSha)).1 = false)
    ∧ (guardRefusal c3req.sha).status = 400 :=
  ⟨C2_amended_status_policy.1 c2cfgFail none c2pushNoop (by decide),
   C2_amended_status_policy.2.1 c2cfgFail c2prNoop (by decide),
   C2_amended_status_policy.2.2.1 c2cfgFail none c2push (by decide),
   C2_amended_status_policy.2.2.2.1 c2cfgFail c2pr (by decide),
   C2_amended_status_policy.2.2.2.2 c3cfg c3env c3req (guardRefusal c3req.sha)
     (revertGuard_of_subject c3env.world c3req rfl (by decide)) rfl⟩

end Gitbot
